import Mathlib

/-!
Verification of the DNS resolution orchestrator in
`src/node/internal_binding/cares_wrap.ts`.

The module is a shallow embedding of that file.  External collaborators are
modelled as parameters or values:
* the resolver primitive `Deno.resolveDns(name, recordType)` is an oracle,
  passed to each operation as the outcome it would deliver for the queried
  name and record type (`Except DnsErr (List _)` - fulfilled with a record
  list, or rejected with a failure that either is or is not an instance of
  `Deno.errors.NotFound`);
* the platform flag `isWindows` (imported from `_util/os.ts`) is a `Bool`
  parameter;
* the IPv4 literal recognizer `isIPv4` (imported from `internal/net.ts`) is
  a `(String → Bool)` parameter of the ordering and filtering code; a
  concrete spec-modelled recognizer is provided for closed evaluations;
* the settlement schedule of concurrently dispatched sub-queries is an
  explicit list parameter `settled`: the dispatched promises fulfil in that
  order, and each `.then` callback pushes its records at its own settlement
  point.  Theorems that need the schedule to be well formed hypothesise
  that it is a permutation of the dispatched record-type list.

Asynchronous delivery is made explicit: a binding call is modelled as a
`CallResult` holding the synchronous return value (`ret`) together with the
list of `req.oncomplete(code, records)` invocations it performs, in order.
A thrown (synchronous) error is an `Except.error` around the `CallResult`.
-/

/-- Modelled from the spec: the numeric code `codeMap.get ("EAI_NODATA")` from
`internal_binding/uv.ts`, which is not under `src/`.  The spec fixes only that
failure codes follow a POSIX-errno-like convention (zero is success, failure
codes are non-zero/negative); the value used is the libuv one.  No claim
depends on the concrete value. -/
def EAI_NODATA : Int := -3007

/-- Modelled from the spec: the numeric code `codeMap.get ("UNKNOWN")` from
`internal_binding/uv.ts` (not under `src/`), a generic failure code distinct
from `EAI_NODATA` and from zero.  The value used is the libuv one. -/
def UNKNOWN : Int := -4094

/-- The record types getaddrinfo can dispatch: the literal union
`("A" | "AAAA")[]` of `cares_wrap.ts` line 70. -/
inductive RecType
  | A
  | AAAA
deriving DecidableEq

/-- Failure classes the catch block of `ChannelWrap.#query` (lines 177-184)
distinguishes: an `instanceof Deno.errors.NotFound` rejection versus any other
rejection. -/
inductive DnsErr
  | notFound
  | other
deriving DecidableEq

/-- The observable effect of one binding call: the synchronous return value
and the list of `req.oncomplete(code, records)` invocations, in order. -/
structure CallResult (ρ : Type) where
  ret : Int
  completions : List (Int × ρ)
deriving DecidableEq

/-- Splits a character list at every dot, keeping empty groups
(helper of the spec-modelled `isIPv4`). -/
def splitDots : List Char → List (List Char)
  | [] => [[]]
  | '.' :: rest => [] :: splitDots rest
  | c :: rest =>
    match splitDots rest with
    | [] => [[c]]
    | g :: gs => (c :: g) :: gs

/-- Decimal value of a digit group (helper of the spec-modelled `isIPv4`). -/
def octetVal (p : List Char) : Nat :=
  p.foldl (fun n c => n * 10 + (c.toNat - 48)) 0

/-- One valid dotted-quad octet: one to three decimal digits, value at most
255, no leading zero (helper of the spec-modelled `isIPv4`). -/
def octetOk : List Char → Bool
  | [] => false
  | c :: cs =>
    (c :: cs).all Char.isDigit && (c :: cs).length ≤ 3 &&
      (cs.isEmpty || c != '0') && octetVal (c :: cs) ≤ 255

/-- Modelled from the spec: `isIPv4` from `internal/net.ts`, which is not
under `src/`.  The spec speaks of "IPv4-literal addresses"; this is the
standard dotted-quad recognizer (exactly four dot-separated decimal octets,
each 0-255, written without leading zeros), matching the Node recognizer the
source imports. -/
def isIPv4 (s : String) : Bool :=
  let parts := splitDots s.toList
  parts.length == 4 && parts.all octetOk

/-- Inserts an element at a position of a list (appends when the position is
past the end). -/
def insertAtIdx : Nat → α → List α → List α
  | 0, x, l => x :: l
  | _ + 1, x, [] => [x]
  | n + 1, x, a :: l => a :: insertAtIdx n x l

/-- The binary search of the V8 runtime sort (the `left`/`right`/`mid` loop of
the binary insertion sort V8 uses for a sort run), written with explicit fuel
so that it is structurally recursive; the fuel is always instantiated with at
least `right - left`, which makes it equivalent to the unbounded loop. -/
def v8BinarySearchGo {α : Type} (cmp : α → α → Int) (pivot : α) (l : List α) :
    Nat → Nat → Nat → Nat
  | 0, left, _ => left
  | fuel + 1, left, right =>
    if left < right then
      match l.get? (left + (right - left) / 2) with
      | some y =>
        if cmp pivot y < 0 then
          v8BinarySearchGo cmp pivot l fuel left (left + (right - left) / 2)
        else
          v8BinarySearchGo cmp pivot l fuel (left + (right - left) / 2 + 1) right
      | none => left
    else left

/-- Position at which the V8 binary insertion sort inserts `pivot` into the
sorted prefix `l`. -/
def v8BinarySearch {α : Type} (cmp : α → α → Int) (pivot : α) (l : List α) : Nat :=
  v8BinarySearchGo cmp pivot l l.length 0 l.length

/-- One insertion step of the V8 binary insertion sort. -/
def v8SortInsert {α : Type} (cmp : α → α → Int) (sorted : List α) (x : α) : List α :=
  insertAtIdx (v8BinarySearch cmp x sorted) x sorted

/-- Embedding of `addresses.sort(comparefn)` (`cares_wrap.ts` lines 93-101) as
executed by the V8 runtime Deno runs on.  The comparator passed by the source
is not a consistent comparison function (it returns -1 for any pair whose
first component is an IPv4 literal), so ECMAScript leaves the resulting order
implementation-defined and the runtime algorithm is the ground truth.  V8
sorts with TimSort; on an array that forms a single run (in particular any
array below the merge threshold) TimSort reduces to binary insertion sort
with the search above, which is what this definition performs.  The
counterexample below uses a two-element array, where this model is exactly
the runtime behaviour. -/
def v8InsertionSort {α : Type} (cmp : α → α → Int) (l : List α) : List α :=
  l.foldl (v8SortInsert cmp) []

/-- The comparator literal of `cares_wrap.ts` lines 93-101. -/
def caresCompare (ip4 : String → Bool) (a b : String) : Int :=
  if ip4 a then -1
  else if ip4 b then 1
  else 0

/-- The record-type set getaddrinfo selects from `family`
(`cares_wrap.ts` lines 70-77): push "A" when family is 0 or 4, then push
"AAAA" when family is 0 or 6. -/
def addrRecordTypes (family : Int) : List RecType :=
  (if family = 0 ∨ family = 4 then [RecType.A] else []) ++
    (if family = 0 ∨ family = 6 then [RecType.AAAA] else [])

/-- Records contributed by one getaddrinfo sub-query: the records pushed by
its `.then` callback (`cares_wrap.ts` lines 82-84).  A rejected
`Deno.resolveDns` promise skips its `.then` callback and contributes nothing
(the rejection is absorbed by `Promise.allSettled`). -/
def resolvedOrEmpty (resolve : RecType → Except DnsErr (List String))
    (rt : RecType) : List String :=
  match resolve rt with
  | Except.ok records => records
  | Except.error _ => []

/-- The merged `addresses` array after `Promise.allSettled` (lines 79-86):
each fulfilled sub-query pushes its records at its own settlement point, so
the concatenation follows the settlement order `settled`. -/
def gaiMerged (resolve : RecType → Except DnsErr (List String)) :
    List RecType → List String
  | [] => []
  | rt :: rest => resolvedOrEmpty resolve rt ++ gaiMerged resolve rest

/-- The aggregate error code of getaddrinfo (line 88): computed from the
merged array before the ordering and filtering steps. -/
def gaiError (merged : List String) : Int :=
  if merged.length ≠ 0 then 0 else EAI_NODATA

/-- Lines 92-102: the sort is applied only when `verbatim` is false. -/
def gaiOrdered (ip4 : String → Bool) (verbatim : Bool) (merged : List String) :
    List String :=
  if verbatim then merged else v8InsertionSort (caresCompare ip4) merged

/-- Lines 104-109: on Windows, for hostname "localhost", non-IPv4 addresses
are dropped.  Note this step is outside the `verbatim` guard. -/
def gaiDelivered (win : Bool) (ip4 : String → Bool) (hostname : String)
    (verbatim : Bool) (merged : List String) : List String :=
  if win = true ∧ hostname = "localhost" then
    (gaiOrdered ip4 verbatim merged).filter ip4
  else gaiOrdered ip4 verbatim merged

/-- Embedding of `getaddrinfo` (`cares_wrap.ts` lines 58-115): computes the
record-type set from `family`, dispatches one sub-query per selected type,
joins on all of them (`Promise.allSettled`), computes the error code from the
merged array, applies the ordering and the platform filter, invokes
`req.oncomplete(error, addresses)` once, and synchronously returns 0.  The
body is total: the call never raises.  `sched` is the settlement schedule:
it reorders the dispatched sub-query list into the order in which the
sub-queries settle; theorems about well-formed executions hypothesise that
`sched (addrRecordTypes family)` is a permutation of `addrRecordTypes
family`. -/
def getaddrinfo (win : Bool) (ip4 : String → Bool)
    (resolve : RecType → Except DnsErr (List String))
    (hostname : String) (family : Int) (_hints : Int) (verbatim : Bool)
    (sched : List RecType → List RecType) : CallResult (List String) :=
  { ret := 0
    completions :=
      [(gaiError (gaiMerged resolve (sched (addrRecordTypes family))),
        gaiDelivered win ip4 hostname verbatim
          (gaiMerged resolve (sched (addrRecordTypes family))))] }

/-- Embedding of `ChannelWrap.#query` (`cares_wrap.ts` lines 169-187): `ret`
starts as `[]` and `code` as 0; the awaited `Deno.resolveDns` outcome either
replaces `ret` (success) or, in the catch block, sets `code` to `EAI_NODATA`
for a `Deno.errors.NotFound` rejection and to `UNKNOWN` for any other
rejection.  The catch is universal, so the method always resolves to a
`(code, ret)` value and never rejects. -/
def channelQuery {α : Type} (res : Except DnsErr (List α)) : Int × List α :=
  match res with
  | Except.ok records => (0, records)
  | Except.error DnsErr.notFound => (EAI_NODATA, [])
  | Except.error DnsErr.other => (UNKNOWN, [])

/-- The seven record types `queryAny` fans out to (lines 198-237). -/
inductive AnyTag
  | A
  | AAAA
  | CNAME
  | MX
  | PTR
  | SRV
  | TXT
deriving DecidableEq

/-- A native MX record as returned by the resolver primitive
(`Deno.MXRecord`). -/
structure MXRecord where
  preference : Int
  exchange : String
deriving DecidableEq

/-- A native SRV record as returned by the resolver primitive
(`Deno.SRVRecord`). -/
structure SRVRecord where
  priority : Int
  weight : Int
  port : Int
  target : String
deriving DecidableEq

/-- The MX result shape `queryMx` delivers (lines 277-282): `preference`
renamed to `priority`, `exchange` kept. -/
structure MXReply where
  priority : Int
  exchange : String
deriving DecidableEq

/-- The SRV result shape `querySrv` delivers (lines 307-313): `priority`,
`weight` and `port` kept, `target` renamed to `name`. -/
structure SRVReply where
  priority : Int
  weight : Int
  port : Int
  name : String
deriving DecidableEq

/-- The field-renaming transform of `queryMx` (lines 277-282). -/
def mxReplyOf (m : MXRecord) : MXReply :=
  { priority := m.preference, exchange := m.exchange }

/-- The restructuring transform of `querySrv` (lines 307-313). -/
def srvReplyOf (s : SRVRecord) : SRVReply :=
  { priority := s.priority, weight := s.weight, port := s.port, name := s.target }

/-- The tagged records `queryAny` pushes (lines 196-236), one constructor per
object shape pushed by the source. -/
inductive AnyRecord
  | A (address : String)
  | AAAA (address : String)
  | CNAME (value : String)
  | MX (priority : Int) (exchange : String)
  | PTR (value : String)
  | SRV (priority : Int) (weight : Int) (port : Int) (name : String)
  | TXT (entries : List String)
deriving DecidableEq

/-- The resolver primitive oracle for one `queryAny` call: the
`Deno.resolveDns` outcome for each of the seven fanned-out record types of
the queried name. -/
structure AnyResolver where
  a : Except DnsErr (List String)
  aaaa : Except DnsErr (List String)
  cname : Except DnsErr (List String)
  mx : Except DnsErr (List MXRecord)
  ptr : Except DnsErr (List String)
  srv : Except DnsErr (List SRVRecord)
  txt : Except DnsErr (List (List String))

/-- Records pushed by one `queryAny` sub-query (lines 199-236): each `.then`
destructures only `ret` from the `#query` outcome (discarding `code`, so a
failed sub-query contributes the empty `ret`), and pushes each record in its
type-specific tagged shape. -/
def anyRecordsFor (r : AnyResolver) : AnyTag → List AnyRecord
  | AnyTag.A => (channelQuery r.a).2.map AnyRecord.A
  | AnyTag.AAAA => (channelQuery r.aaaa).2.map AnyRecord.AAAA
  | AnyTag.CNAME => (channelQuery r.cname).2.map AnyRecord.CNAME
  | AnyTag.MX => (channelQuery r.mx).2.map (fun m => AnyRecord.MX m.preference m.exchange)
  | AnyTag.PTR => (channelQuery r.ptr).2.map AnyRecord.PTR
  | AnyTag.SRV =>
    (channelQuery r.srv).2.map (fun s => AnyRecord.SRV s.priority s.weight s.port s.target)
  | AnyTag.TXT => (channelQuery r.txt).2.map AnyRecord.TXT

/-- The fan-out list of `queryAny`, in dispatch order (lines 198-237). -/
def queryAnyFanout : List AnyTag :=
  [AnyTag.A, AnyTag.AAAA, AnyTag.CNAME, AnyTag.MX, AnyTag.PTR, AnyTag.SRV, AnyTag.TXT]

/-- The merged `records` array of `queryAny` after `Promise.allSettled`: each
sub-query pushes its tagged records at its own settlement point, so the
concatenation follows the settlement order. -/
def anyMerged (r : AnyResolver) : List AnyTag → List AnyRecord
  | [] => []
  | t :: rest => anyRecordsFor r t ++ anyMerged r rest

/-- The aggregate error code of `queryAny` (line 239). -/
def anyError (records : List AnyRecord) : Int :=
  if records.length ≠ 0 then 0 else EAI_NODATA

/-- Embedding of `ChannelWrap.queryAny` (lines 189-245): fans out the seven
sub-queries, joins on all of them, merges the tagged records in settlement
order (`sched` reorders the dispatch list into settlement order), derives the
aggregate error code, invokes `req.oncomplete` once and returns 0.  The body
never raises, hence the `Except.ok`. -/
def queryAny (r : AnyResolver) (sched : List AnyTag → List AnyTag) :
    Except String (CallResult (List AnyRecord)) :=
  Except.ok
    { ret := 0
      completions :=
        [(anyError (anyMerged r (sched queryAnyFanout)),
          anyMerged r (sched queryAnyFanout))] }

/-- Embedding of `ChannelWrap.queryA` (lines 247-253): forwards the `#query`
outcome to `req.oncomplete` and returns 0. -/
def queryA (res : Except DnsErr (List String)) :
    Except String (CallResult (List String)) :=
  Except.ok { ret := 0, completions := [channelQuery res] }

/-- Embedding of `ChannelWrap.queryAaaa` (lines 255-261). -/
def queryAaaa (res : Except DnsErr (List String)) :
    Except String (CallResult (List String)) :=
  Except.ok { ret := 0, completions := [channelQuery res] }

/-- Embedding of `ChannelWrap.queryCname` (lines 267-273). -/
def queryCname (res : Except DnsErr (List String)) :
    Except String (CallResult (List String)) :=
  Except.ok { ret := 0, completions := [channelQuery res] }

/-- Embedding of `ChannelWrap.queryMx` (lines 275-288): forwards the `#query`
error code unchanged and maps each native MX record through the
field-renaming transform before delivery. -/
def queryMx (res : Except DnsErr (List MXRecord)) :
    Except String (CallResult (List MXReply)) :=
  Except.ok
    { ret := 0
      completions := [((channelQuery res).1, (channelQuery res).2.map mxReplyOf)] }

/-- Embedding of `ChannelWrap.queryTxt` (lines 297-303). -/
def queryTxt (res : Except DnsErr (List (List String))) :
    Except String (CallResult (List (List String))) :=
  Except.ok { ret := 0, completions := [channelQuery res] }

/-- Embedding of `ChannelWrap.querySrv` (lines 305-320): forwards the
`#query` error code unchanged and restructures each native SRV record before
delivery. -/
def querySrv (res : Except DnsErr (List SRVRecord)) :
    Except String (CallResult (List SRVReply)) :=
  Except.ok
    { ret := 0
      completions := [((channelQuery res).1, (channelQuery res).2.map srvReplyOf)] }

/-- Embedding of `ChannelWrap.queryPtr` (lines 322-328). -/
def queryPtr (res : Except DnsErr (List String)) :
    Except String (CallResult (List String)) :=
  Except.ok { ret := 0, completions := [channelQuery res] }

/-- Modelled from the spec: `notImplemented` from `node/_utils.ts`, which is
not under `src/`.  Per the spec, unsupported operations "fail immediately and
synchronously (not via the async completion path)": the call raises an
unsupported-operation error before any asynchronous work is scheduled, so no
completion is ever delivered and no return value is produced. -/
def notImplemented {ρ : Type} (feature : String) : Except String (CallResult ρ) :=
  Except.error ("Not implemented: " ++ feature)

/-- Embedding of `ChannelWrap.queryCaa` (lines 263-265): unsupported, raises
synchronously. -/
def queryCaa : Except String (CallResult (List String)) :=
  notImplemented "cares.ChannelWrap.prototype.queryCaa"

/-- Embedding of `ChannelWrap.queryNs` (lines 290-295): unsupported, raises
synchronously. -/
def queryNs : Except String (CallResult (List String)) :=
  notImplemented "cares.ChannelWrap.prototype.queryNs"

/-- Embedding of `ChannelWrap.queryNaptr` (lines 330-333): unsupported,
raises synchronously. -/
def queryNaptr : Except String (CallResult (List String)) :=
  notImplemented "cares.ChannelWrap.prototype.queryNaptr"

/-- Embedding of `ChannelWrap.querySoa` (lines 335-340): unsupported, raises
synchronously. -/
def querySoa : Except String (CallResult (List String)) :=
  notImplemented "cares.ChannelWrap.prototype.querySoa"

/-- Embedding of `ChannelWrap.getHostByAddr` (lines 342-345): the reverse
lookup is unsupported and raises synchronously. -/
def getHostByAddr : Except String (CallResult (List String)) :=
  notImplemented "cares.ChannelWrap.prototype.getHostByAddr"

/-- Concrete resolver oracle for the Windows-localhost counterexamples: the A
lookup rejects with NotFound, the AAAA lookup resolves to the IPv6 loopback
address. -/
def resolveOnlyV6 : RecType → Except DnsErr (List String)
  | RecType.A => Except.error DnsErr.notFound
  | RecType.AAAA => Except.ok ["::1"]

/-- Concrete resolver oracle for the ordering counterexample: two IPv4
literals from the A lookup, none from the AAAA lookup. -/
def resolveTwoV4 : RecType → Except DnsErr (List String)
  | RecType.A => Except.ok ["1.0.0.1", "2.0.0.2"]
  | RecType.AAAA => Except.ok []

/-- Concrete resolver oracle for the merge-order counterexample: one address
from each sub-query. -/
def resolveOneEach : RecType → Except DnsErr (List String)
  | RecType.A => Except.ok ["1.2.3.4"]
  | RecType.AAAA => Except.ok ["::1"]

theorem insertAtIdx_length {α : Type} (l : List α) (x : α) :
    insertAtIdx l.length x l = l ++ [x] := by
  induction l with
  | nil => rfl
  | cons a t ih => simp [insertAtIdx, ih]

theorem v8BinarySearchGo_all_lt {α : Type} (cmp : α → α → Int) (pivot : α)
    (l : List α) (h : ∀ y, cmp pivot y < 0) :
    ∀ fuel left right, v8BinarySearchGo cmp pivot l fuel left right = left := by
  intro fuel
  induction fuel with
  | zero => intro left right; rfl
  | succ n ih =>
    intro left right
    simp only [v8BinarySearchGo]
    split
    · cases hm : l.get? (left + (right - left) / 2) with
      | some y => simp only [hm, if_pos (h y), ih]
      | none => simp only [hm]
    · rfl

theorem v8BinarySearchGo_all_ge {α : Type} (cmp : α → α → Int) (pivot : α)
    (l : List α) (h : ∀ y, 0 ≤ cmp pivot y) :
    ∀ fuel left right, left ≤ right → right ≤ l.length → right - left ≤ fuel →
      v8BinarySearchGo cmp pivot l fuel left right = right := by
  intro fuel
  induction fuel with
  | zero =>
    intro left right h1 _ h3
    have heq : left = right := by omega
    subst heq; rfl
  | succ n ih =>
    intro left right h1 h2 h3
    simp only [v8BinarySearchGo]
    split
    case isTrue hlt =>
      cases hm : l.get? (left + (right - left) / 2) with
      | some y =>
        simp only [hm, if_neg (not_lt.mpr (h y))]
        exact ih (left + (right - left) / 2 + 1) right (by omega) h2 (by omega)
      | none =>
        exfalso
        have hlen := List.get?_eq_none.mp hm
        omega
    case isFalse hlt => omega

theorem caresCompare_neg_of_ip4 (ip4 : String → Bool) (a b : String)
    (h : ip4 a = true) : caresCompare ip4 a b < 0 := by
  unfold caresCompare
  rw [if_pos h]
  norm_num

theorem caresCompare_nonneg_of_not_ip4 (ip4 : String → Bool) (a b : String)
    (h : ip4 a = false) : 0 ≤ caresCompare ip4 a b := by
  unfold caresCompare
  rw [if_neg (by simp [h])]
  split <;> norm_num

theorem v8SortInsert_cares (ip4 : String → Bool) (sorted : List String) (x : String) :
    v8SortInsert (caresCompare ip4) sorted x =
      if ip4 x then x :: sorted else sorted ++ [x] := by
  unfold v8SortInsert v8BinarySearch
  cases hx : ip4 x with
  | true =>
    rw [v8BinarySearchGo_all_lt (caresCompare ip4) x sorted
      (fun y => caresCompare_neg_of_ip4 ip4 x y hx)]
    rfl
  | false =>
    rw [v8BinarySearchGo_all_ge (caresCompare ip4) x sorted
      (fun y => caresCompare_nonneg_of_not_ip4 ip4 x y hx)
      sorted.length 0 sorted.length (Nat.zero_le _) le_rfl (by omega)]
    exact insertAtIdx_length sorted x

theorem v8Sort_foldl (ip4 : String → Bool) :
    ∀ (l R N : List String),
      l.foldl (v8SortInsert (caresCompare ip4)) (R ++ N) =
        ((l.filter (fun a => ip4 a)).reverse ++ R) ++ (N ++ l.filter (fun a => !(ip4 a))) := by
  intro l
  induction l with
  | nil => intro R N; simp
  | cons x xs ih =>
    intro R N
    rw [List.foldl_cons, v8SortInsert_cares]
    cases hx : ip4 x with
    | true =>
      rw [if_pos rfl]
      have hacc : x :: (R ++ N) = (x :: R) ++ N := rfl
      rw [hacc, ih (x :: R) N]
      simp [hx, List.filter_cons, List.append_assoc]
    | false =>
      rw [if_neg (by decide : ¬(false = true))]
      have hacc : (R ++ N) ++ [x] = R ++ (N ++ [x]) := by rw [List.append_assoc]
      rw [hacc, ih R (N ++ [x])]
      simp [hx, List.filter_cons, List.append_assoc]

theorem v8Sort_cares_eq (ip4 : String → Bool) (l : List String) :
    v8InsertionSort (caresCompare ip4) l =
      (l.filter (fun a => ip4 a)).reverse ++ l.filter (fun a => !(ip4 a)) := by
  have h := v8Sort_foldl ip4 l [] []
  simpa [v8InsertionSort] using h

theorem v8Sort_cares_perm (ip4 : String → Bool) (l : List String) :
    (v8InsertionSort (caresCompare ip4) l).Perm l := by
  rw [v8Sort_cares_eq]
  refine ((List.reverse_perm _).append_right _).trans ?_
  exact List.filter_append_perm (fun a => ip4 a) l

theorem v8Sort_cares_eq_nil_iff (ip4 : String → Bool) (l : List String) :
    v8InsertionSort (caresCompare ip4) l = [] ↔ l = [] := by
  constructor
  · intro h
    have hp := v8Sort_cares_perm ip4 l
    rw [h] at hp
    exact (List.nil_perm.mp hp)
  · intro h; subst h; rfl

theorem gaiOrdered_eq_nil_iff (ip4 : String → Bool) (verbatim : Bool) (m : List String) :
    gaiOrdered ip4 verbatim m = [] ↔ m = [] := by
  unfold gaiOrdered
  split
  · exact Iff.rfl
  · exact v8Sort_cares_eq_nil_iff ip4 m

theorem gaiDelivered_nil (win : Bool) (ip4 : String → Bool) (hostname : String)
    (verbatim : Bool) : gaiDelivered win ip4 hostname verbatim [] = [] := by
  unfold gaiDelivered
  have hord : gaiOrdered ip4 verbatim [] = [] := (gaiOrdered_eq_nil_iff ip4 verbatim []).mpr rfl
  rw [hord]
  split <;> rfl

theorem merged_ne_nil_of_delivered_ne_nil (win : Bool) (ip4 : String → Bool)
    (hostname : String) (verbatim : Bool) (m : List String)
    (h : gaiDelivered win ip4 hostname verbatim m ≠ []) : m ≠ [] := by
  intro hm
  subst hm
  exact h (gaiDelivered_nil win ip4 hostname verbatim)

theorem gaiError_of_ne_nil (m : List String) (h : m ≠ []) : gaiError m = 0 := by
  unfold gaiError
  rw [if_pos (by simpa [List.length_eq_zero] using h)]

theorem gaiError_nil : gaiError [] = EAI_NODATA := by
  unfold gaiError
  norm_num

theorem anyError_of_ne_nil (records : List AnyRecord) (h : records ≠ []) :
    anyError records = 0 := by
  unfold anyError
  rw [if_pos (by simpa [List.length_eq_zero] using h)]

theorem anyError_nil : anyError [] = EAI_NODATA := by
  unfold anyError
  norm_num

theorem sublist_gaiMerged_of_mem (resolve : RecType → Except DnsErr (List String)) :
    ∀ (settled : List RecType) (rt : RecType), rt ∈ settled →
      (resolvedOrEmpty resolve rt).Sublist (gaiMerged resolve settled) := by
  intro settled
  induction settled with
  | nil => intro rt h; cases h
  | cons hd tl ih =>
    intro rt h
    simp only [gaiMerged]
    rcases List.mem_cons.mp h with h1 | h2
    · subst h1; exact List.sublist_append_left _ _
    · exact (ih rt h2).trans (List.sublist_append_right _ _)

/-- C1 counterexample: on Windows with hostname "localhost", family
UNSPECIFIED, an A sub-query that fails not-found and an AAAA sub-query that
resolves to the IPv6 loopback, the merged sequence is non-empty, so the error
code is computed as 0 - but the loopback filter then empties the delivered
sequence, so the completion handler receives an empty sequence together with
error code 0, not EAI_NODATA.  This contradicts the claim that an empty
delivered sequence always carries the NODATA code. -/
theorem gai_error_zero_with_empty_delivery_on_windows_localhost :
    (getaddrinfo true isIPv4 resolveOnlyV6 "localhost" 0 0 false id).completions = [(0, [])]
    ∧ gaiMerged resolveOnlyV6 (id (addrRecordTypes 0)) = ["::1"]
    ∧ (0 : Int) ≠ EAI_NODATA := by decide

/-- C1 (amended): the aggregate error code of getaddrinfo is 0 iff the merged
(pre-filter) sequence is non-empty and EAI_NODATA iff it is empty; because
the error code is computed before the Windows loopback filter, the
equivalence transfers to the delivered sequence in one direction always
(non-empty delivery implies code 0), and in the other direction whenever the
platform is not Windows or the hostname is not "localhost".  For queryAny the
delivered sequence is the merged sequence itself, so the equivalence holds
unconditionally. -/
theorem aggregate_error_code_char
    (win : Bool) (ip4 : String → Bool)
    (resolve : RecType → Except DnsErr (List String))
    (hostname : String) (family hints : Int) (verbatim : Bool)
    (sched : List RecType → List RecType)
    (r : AnyResolver) (schedAny : List AnyTag → List AnyTag) :
    (getaddrinfo win ip4 resolve hostname family hints verbatim sched).completions =
        [(gaiError (gaiMerged resolve (sched (addrRecordTypes family))),
          gaiDelivered win ip4 hostname verbatim
            (gaiMerged resolve (sched (addrRecordTypes family))))]
    ∧ (gaiMerged resolve (sched (addrRecordTypes family)) ≠ [] →
        gaiError (gaiMerged resolve (sched (addrRecordTypes family))) = 0)
    ∧ (gaiMerged resolve (sched (addrRecordTypes family)) = [] →
        gaiError (gaiMerged resolve (sched (addrRecordTypes family))) = EAI_NODATA)
    ∧ (gaiDelivered win ip4 hostname verbatim
          (gaiMerged resolve (sched (addrRecordTypes family))) ≠ [] →
        gaiError (gaiMerged resolve (sched (addrRecordTypes family))) = 0)
    ∧ (¬(win = true ∧ hostname = "localhost") →
        gaiDelivered win ip4 hostname verbatim
            (gaiMerged resolve (sched (addrRecordTypes family))) = [] →
        gaiError (gaiMerged resolve (sched (addrRecordTypes family))) = EAI_NODATA)
    ∧ (∀ c, queryAny r schedAny = Except.ok c →
        c.completions = [(anyError (anyMerged r (schedAny queryAnyFanout)),
          anyMerged r (schedAny queryAnyFanout))]
        ∧ (anyMerged r (schedAny queryAnyFanout) ≠ [] →
            anyError (anyMerged r (schedAny queryAnyFanout)) = 0)
        ∧ (anyMerged r (schedAny queryAnyFanout) = [] →
            anyError (anyMerged r (schedAny queryAnyFanout)) = EAI_NODATA)) := by
  refine ⟨rfl, fun h => gaiError_of_ne_nil _ h, fun h => by rw [h]; exact gaiError_nil,
    fun h => gaiError_of_ne_nil _
      (merged_ne_nil_of_delivered_ne_nil win ip4 hostname verbatim _ h), ?_, ?_⟩
  · intro hno hnil
    unfold gaiDelivered at hnil
    rw [if_neg hno] at hnil
    rw [(gaiOrdered_eq_nil_iff ip4 verbatim _).mp hnil]
    exact gaiError_nil
  · intro c hc
    unfold queryAny at hc
    injection hc with hcc
    subst hcc
    exact ⟨rfl, fun h => anyError_of_ne_nil _ h, fun h => by rw [h]; exact anyError_nil⟩

/-- C1 witness: concrete application of the amended characterization - a
non-empty delivered list forces error code 0. -/
theorem aggregate_error_code_char_apply :
    (gaiDelivered false isIPv4 "example.test" false
        (gaiMerged resolveTwoV4 (id (addrRecordTypes 0))) ≠ []
      ∧ ¬(false = true ∧ "example.test" = "localhost"))
    ∧ gaiError (gaiMerged resolveTwoV4 (id (addrRecordTypes 0))) = 0 :=
  ⟨⟨by decide, by decide⟩,
    (aggregate_error_code_char false isIPv4 resolveTwoV4 "example.test" 0 0 false id
        ⟨Except.ok [], Except.ok [], Except.ok [], Except.ok [], Except.ok [],
          Except.ok [], Except.ok []⟩ id).2.2.2.1 (by decide)⟩

/-- C2: for every resolver oracle (any combination of sub-query successes and
failures) and every settlement schedule, getaddrinfo and queryAny return 0
synchronously without raising and invoke the completion handler exactly
once. -/
theorem completion_exactly_once_and_zero_return :
    ∀ (win : Bool) (ip4 : String → Bool) (resolve : RecType → Except DnsErr (List String))
      (hostname : String) (family hints : Int) (verbatim : Bool)
      (sched : List RecType → List RecType)
      (r : AnyResolver) (schedAny : List AnyTag → List AnyTag),
      (getaddrinfo win ip4 resolve hostname family hints verbatim sched).ret = 0
      ∧ (getaddrinfo win ip4 resolve hostname family hints verbatim sched).completions.length = 1
      ∧ ∃ c, queryAny r schedAny = Except.ok c ∧ c.ret = 0 ∧ c.completions.length = 1 :=
  fun _ _ _ _ _ _ _ _ _ _ => ⟨rfl, rfl, ⟨_, rfl, rfl, rfl⟩⟩

/-- C3 counterexample: with family UNSPECIFIED and an A sub-query returning
the two IPv4 literals "1.0.0.1" and "2.0.0.2" (in that order), the
non-verbatim reordering delivers them as "2.0.0.2", "1.0.0.1": the relative
order of the IPv4 class is reversed, not preserved, so the reordering is not
a stable partition. -/
theorem gai_order_reverses_ipv4_class :
    isIPv4 "1.0.0.1" = true ∧ isIPv4 "2.0.0.2" = true
    ∧ gaiMerged resolveTwoV4 (id (addrRecordTypes 0)) = ["1.0.0.1", "2.0.0.2"]
    ∧ (getaddrinfo false isIPv4 resolveTwoV4 "example.test" 0 0 false id).completions =
        [(0, ["2.0.0.2", "1.0.0.1"])] := by decide

/-- C3 (amended): for every IPv4 classifier and every merged list, the
non-verbatim reordering is a partition that places every IPv4-literal address
before every non-IPv4 address and preserves the relative input order of the
non-IPv4 class, but reverses the relative input order of the IPv4 class (the
comparator is not a consistent comparison function, and the runtime insertion
procedure inserts every IPv4 element at the front). -/
theorem gai_nonverbatim_order_char (ip4 : String → Bool) (l : List String) :
    gaiOrdered ip4 false l = v8InsertionSort (caresCompare ip4) l
    ∧ v8InsertionSort (caresCompare ip4) l =
        (l.filter (fun a => ip4 a)).reverse ++ l.filter (fun a => !(ip4 a)) :=
  ⟨rfl, v8Sort_cares_eq ip4 l⟩

/-- C4 counterexample: with verbatim set, on Windows with hostname
"localhost", the merged list ["::1"] is not delivered unmodified: the
loopback filter sits outside the verbatim guard and empties it. -/
theorem gai_loopback_filter_ignores_verbatim :
    gaiMerged resolveOnlyV6 (id (addrRecordTypes 6)) = ["::1"]
    ∧ (getaddrinfo true isIPv4 resolveOnlyV6 "localhost" 6 0 true id).completions = [(0, [])]
    ∧ (["::1"] : List String) ≠ [] := by decide

/-- C4 (amended): the IPv4-before-IPv6 ordering is applied exactly when
verbatim is false, but the platform loopback filter is applied whenever the
platform is Windows and the hostname is "localhost", regardless of verbatim;
the merged list is delivered unmodified under verbatim only when the loopback
filter does not apply. -/
theorem gai_transform_application_char
    (win : Bool) (ip4 : String → Bool) (hostname : String) (verbatim : Bool)
    (m : List String) :
    gaiOrdered ip4 true m = m
    ∧ gaiOrdered ip4 false m = v8InsertionSort (caresCompare ip4) m
    ∧ (win = true ∧ hostname = "localhost" →
        gaiDelivered win ip4 hostname verbatim m = (gaiOrdered ip4 verbatim m).filter ip4)
    ∧ (¬(win = true ∧ hostname = "localhost") →
        gaiDelivered win ip4 hostname verbatim m = gaiOrdered ip4 verbatim m)
    ∧ (¬(win = true ∧ hostname = "localhost") →
        gaiDelivered win ip4 hostname true m = m) := by
  refine ⟨rfl, rfl, fun h => ?_, fun h => ?_, fun h => ?_⟩
  · unfold gaiDelivered; rw [if_pos h]
  · unfold gaiDelivered; rw [if_neg h]
  · unfold gaiDelivered; rw [if_neg h]; rfl

/-- C4 witness: concrete application of the transform characterization on
Windows with hostname "localhost". -/
theorem gai_transform_application_char_apply :
    (true = true ∧ "localhost" = "localhost")
    ∧ gaiDelivered true isIPv4 "localhost" false ["::1", "127.0.0.1"] =
        (gaiOrdered isIPv4 false ["::1", "127.0.0.1"]).filter isIPv4 :=
  ⟨⟨rfl, rfl⟩,
    (gai_transform_application_char true isIPv4 "localhost" false
        ["::1", "127.0.0.1"]).2.2.1 ⟨rfl, rfl⟩⟩

/-- C5: family UNSPECIFIED (0) selects A then AAAA, family 4 selects A only,
family 6 selects AAAA only; and for every well-formed settlement schedule
(a permutation of the dispatched list - all dispatched sub-queries settle
before aggregation), the records of every successful dispatched sub-query
appear, in resolver order, inside the merged sequence: no sub-query is
short-circuited by the failure or success of another. -/
theorem gai_family_dispatch_and_join :
    addrRecordTypes 0 = [RecType.A, RecType.AAAA]
    ∧ addrRecordTypes 4 = [RecType.A]
    ∧ addrRecordTypes 6 = [RecType.AAAA]
    ∧ ∀ (resolve : RecType → Except DnsErr (List String)) (family : Int)
        (sched : List RecType → List RecType),
        (sched (addrRecordTypes family)).Perm (addrRecordTypes family) →
        ∀ rt records, rt ∈ addrRecordTypes family → resolve rt = Except.ok records →
          records.Sublist (gaiMerged resolve (sched (addrRecordTypes family))) := by
  refine ⟨by decide, by decide, by decide, ?_⟩
  intro resolve family sched hperm rt records hmem hok
  have hmem2 : rt ∈ sched (addrRecordTypes family) := hperm.mem_iff.mpr hmem
  have hsub := sublist_gaiMerged_of_mem resolve _ rt hmem2
  simpa [resolvedOrEmpty, hok] using hsub

/-- C5 witness: with family UNSPECIFIED and the two sub-queries settling in
reverse dispatch order, the successful A records still appear inside the
merged sequence. -/
theorem gai_family_dispatch_and_join_apply :
    ((List.reverse (addrRecordTypes 0)).Perm (addrRecordTypes 0)
      ∧ RecType.A ∈ addrRecordTypes 0
      ∧ resolveTwoV4 RecType.A = Except.ok ["1.0.0.1", "2.0.0.2"])
    ∧ List.Sublist ["1.0.0.1", "2.0.0.2"]
        (gaiMerged resolveTwoV4 (List.reverse (addrRecordTypes 0))) :=
  ⟨⟨by decide, by decide, rfl⟩,
    gai_family_dispatch_and_join.2.2.2 resolveTwoV4 0 List.reverse (by decide)
      RecType.A ["1.0.0.1", "2.0.0.2"] (by decide) rfl⟩

/-- C6 counterexample: with family UNSPECIFIED, A resolving to ["1.2.3.4"]
and AAAA resolving to ["::1"], a schedule in which the AAAA sub-query settles
first (a legitimate permutation of the dispatch order) merges the AAAA
addresses before the A addresses; delivery (verbatim, non-Windows) exposes
exactly that order.  The merged sequence is therefore not concatenated in
record-type dispatch order regardless of settlement order. -/
theorem gai_merge_settlement_dependent :
    (List.reverse (addrRecordTypes 0)).Perm (addrRecordTypes 0)
    ∧ gaiMerged resolveOneEach (List.reverse (addrRecordTypes 0)) = ["::1", "1.2.3.4"]
    ∧ gaiMerged resolveOneEach (addrRecordTypes 0) = ["1.2.3.4", "::1"]
    ∧ (["::1", "1.2.3.4"] : List String) ≠ ["1.2.3.4", "::1"]
    ∧ (getaddrinfo false isIPv4 resolveOneEach "example.test" 0 0 true
        List.reverse).completions = [(0, ["::1", "1.2.3.4"])] := by decide

/-- C6 (amended): the merged sequence concatenates per-type results in the
order the sub-queries settle, with each type contributing its records in
resolver order; it equals the dispatch-order concatenation (all A addresses
before all AAAA addresses) exactly when the A sub-query settles first. -/
theorem gai_merge_concatenation_char (resolve : RecType → Except DnsErr (List String)) :
    (∀ rt rest, gaiMerged resolve (rt :: rest) =
      resolvedOrEmpty resolve rt ++ gaiMerged resolve rest)
    ∧ gaiMerged resolve [RecType.A, RecType.AAAA] =
        resolvedOrEmpty resolve RecType.A ++ resolvedOrEmpty resolve RecType.AAAA
    ∧ gaiMerged resolve [RecType.AAAA, RecType.A] =
        resolvedOrEmpty resolve RecType.AAAA ++ resolvedOrEmpty resolve RecType.A := by
  refine ⟨fun rt rest => rfl, ?_, ?_⟩ <;> simp [gaiMerged]

/-- C7: the single-record-type query of ChannelWrap always resolves to a
(code, ret) outcome - no exception crosses its boundary - with code 0 and the
resolver records on success, code EAI_NODATA and empty records on a not-found
failure, and code UNKNOWN and empty records on any other failure. -/
theorem channel_query_outcome_char {α : Type} (res : Except DnsErr (List α)) :
    (∀ records, res = Except.ok records → channelQuery res = (0, records))
    ∧ (res = Except.error DnsErr.notFound → channelQuery res = (EAI_NODATA, []))
    ∧ (res = Except.error DnsErr.other → channelQuery res = (UNKNOWN, [])) := by
  refine ⟨fun records h => ?_, fun h => ?_, fun h => ?_⟩ <;> subst h <;> rfl

/-- C7 witness: the three outcome classes evaluated at concrete inputs. -/
theorem channel_query_outcome_char_apply :
    ((Except.ok ["93.184.216.34"] : Except DnsErr (List String)) = Except.ok ["93.184.216.34"]
      ∧ (Except.error DnsErr.notFound : Except DnsErr (List String)) =
          Except.error DnsErr.notFound)
    ∧ channelQuery (Except.ok ["93.184.216.34"] : Except DnsErr (List String)) =
        (0, ["93.184.216.34"])
    ∧ channelQuery (Except.error DnsErr.notFound : Except DnsErr (List String)) =
        (EAI_NODATA, [])
    ∧ channelQuery (Except.error DnsErr.other : Except DnsErr (List String)) =
        (UNKNOWN, []) :=
  ⟨⟨rfl, rfl⟩,
    (channel_query_outcome_char (Except.ok ["93.184.216.34"])).1 _ rfl,
    (channel_query_outcome_char (Except.error DnsErr.notFound)).2.1 rfl,
    (channel_query_outcome_char (Except.error DnsErr.other)).2.2 rfl⟩

/-- C8: queryCaa, queryNs, queryNaptr, querySoa and getHostByAddr raise an
unsupported-operation error synchronously - no return value is produced and
no completion is ever scheduled - while every supported query operation
returns 0 without raising and delivers outcomes (including failures, as error
codes) solely through its single completion. -/
theorem unsupported_sync_raise_supported_async :
    queryCaa = Except.error "Not implemented: cares.ChannelWrap.prototype.queryCaa"
    ∧ queryNs = Except.error "Not implemented: cares.ChannelWrap.prototype.queryNs"
    ∧ queryNaptr = Except.error "Not implemented: cares.ChannelWrap.prototype.queryNaptr"
    ∧ querySoa = Except.error "Not implemented: cares.ChannelWrap.prototype.querySoa"
    ∧ getHostByAddr =
        Except.error "Not implemented: cares.ChannelWrap.prototype.getHostByAddr"
    ∧ (∀ res : Except DnsErr (List String),
        queryA res = Except.ok { ret := 0, completions := [channelQuery res] })
    ∧ (∀ res : Except DnsErr (List String),
        queryAaaa res = Except.ok { ret := 0, completions := [channelQuery res] })
    ∧ (∀ res : Except DnsErr (List String),
        queryCname res = Except.ok { ret := 0, completions := [channelQuery res] })
    ∧ (∀ res : Except DnsErr (List (List String)),
        queryTxt res = Except.ok { ret := 0, completions := [channelQuery res] })
    ∧ (∀ res : Except DnsErr (List String),
        queryPtr res = Except.ok { ret := 0, completions := [channelQuery res] })
    ∧ (∀ res : Except DnsErr (List MXRecord),
        ∃ c, queryMx res = Except.ok c ∧ c.ret = 0 ∧ c.completions.length = 1)
    ∧ (∀ res : Except DnsErr (List SRVRecord),
        ∃ c, querySrv res = Except.ok c ∧ c.ret = 0 ∧ c.completions.length = 1)
    ∧ (∀ (r : AnyResolver) (sched : List AnyTag → List AnyTag),
        ∃ c, queryAny r sched = Except.ok c ∧ c.ret = 0 ∧ c.completions.length = 1) :=
  ⟨rfl, rfl, rfl, rfl, rfl, fun _ => rfl, fun _ => rfl, fun _ => rfl, fun _ => rfl,
    fun _ => rfl, fun _ => ⟨_, rfl, rfl, rfl⟩, fun _ => ⟨_, rfl, rfl, rfl⟩,
    fun _ _ => ⟨_, rfl, rfl, rfl⟩⟩

/-- C9: queryMx delivers each native MX record with preference renamed to
priority and exchange kept; querySrv delivers each native SRV record with
priority, weight and port kept and target renamed to name; both forward the
sub-query error code unchanged.  The final conjunct is the concrete spec
scenario: preference 10 for "mail.example.test" is delivered as priority 10
with error code 0. -/
theorem mx_srv_result_shape :
    (∀ m : MXRecord, (mxReplyOf m).priority = m.preference
      ∧ (mxReplyOf m).exchange = m.exchange)
    ∧ (∀ s : SRVRecord, (srvReplyOf s).priority = s.priority
      ∧ (srvReplyOf s).weight = s.weight
      ∧ (srvReplyOf s).port = s.port
      ∧ (srvReplyOf s).name = s.target)
    ∧ (∀ res : Except DnsErr (List MXRecord),
        queryMx res =
          Except.ok ⟨0, [((channelQuery res).1, (channelQuery res).2.map mxReplyOf)]⟩)
    ∧ (∀ res : Except DnsErr (List SRVRecord),
        querySrv res =
          Except.ok ⟨0, [((channelQuery res).1, (channelQuery res).2.map srvReplyOf)]⟩)
    ∧ queryMx (Except.ok [⟨10, "mail.example.test"⟩]) =
        Except.ok ⟨0, [(0, [⟨10, "mail.example.test"⟩])]⟩ :=
  ⟨fun _ => ⟨rfl, rfl⟩, fun _ => ⟨rfl, rfl, rfl, rfl⟩, fun _ => rfl, fun _ => rfl, rfl⟩

/-- C10: for every family other than 0, 4 and 6, getaddrinfo selects no
record types (so no resolver lookup is dispatched and any well-formed
settlement schedule is empty), still returns 0, and invokes oncomplete
exactly once with the NODATA code and an empty address list. -/
theorem gai_unknown_family_nodata
    (win : Bool) (ip4 : String → Bool) (resolve : RecType → Except DnsErr (List String))
    (hostname : String) (family hints : Int) (verbatim : Bool)
    (sched : List RecType → List RecType)
    (h0 : family ≠ 0) (h4 : family ≠ 4) (h6 : family ≠ 6)
    (hsched : (sched (addrRecordTypes family)).Perm (addrRecordTypes family)) :
    addrRecordTypes family = []
    ∧ getaddrinfo win ip4 resolve hostname family hints verbatim sched =
        { ret := 0, completions := [(EAI_NODATA, [])] } := by
  have hempty : addrRecordTypes family = [] := by
    unfold addrRecordTypes
    rw [if_neg (by tauto), if_neg (by tauto)]
    rfl
  refine ⟨hempty, ?_⟩
  have hsched2 : sched (addrRecordTypes family) = [] := by
    nth_rewrite 2 [hempty] at hsched
    exact List.perm_nil.mp hsched
  unfold getaddrinfo
  rw [hsched2]
  rw [show gaiMerged resolve [] = [] from rfl, gaiError_nil, gaiDelivered_nil]

/-- C10 witness: family 5, no lookup dispatched, NODATA with empty list. -/
theorem gai_unknown_family_nodata_apply :
    ((5 : Int) ≠ 0 ∧ (5 : Int) ≠ 4 ∧ (5 : Int) ≠ 6
      ∧ (id (addrRecordTypes 5)).Perm (addrRecordTypes 5))
    ∧ getaddrinfo false isIPv4 resolveOnlyV6 "nowhere.invalid" 5 0 false id =
        { ret := 0, completions := [(EAI_NODATA, [])] } :=
  ⟨⟨by decide, by decide, by decide, by decide⟩,
    (gai_unknown_family_nodata false isIPv4 resolveOnlyV6 "nowhere.invalid" 5 0 false id
        (by decide) (by decide) (by decide) (by decide)).2⟩
